import Mathlib

/-!
Verification of the UART firmware-update protocol: the postcard-based
message codec (`messages/src/lib.rs`), the device-side update state
machine (`src/uart_update.rs`), and the host-side chunked transfer
driver (`flasher/src/main.rs`).

Machine integers are modelled as `Nat`; the device's `expected_seg_id`
is a `u16`, so its update is taken modulo 2^16.
-/

namespace Uart

/-! ## Varint encoding (postcard wire format) -/

/-- Fuel-driven worker for the varint encoder; the fuel only bounds the
recursion depth and is irrelevant once it is at least `n`. -/
def varintEncodeGo : Nat → Nat → List Nat
  | 0, n => [n]
  | fuel + 1, n =>
      if n < 128 then [n] else (n % 128 + 128) :: varintEncodeGo fuel (n / 128)

/-- Little-endian base-128 varint encoding: each byte holds 7 data
bits, the high bit means "more bytes follow". -/
def varintEncode (n : Nat) : List Nat := varintEncodeGo n n

/-- Varint decoder with a byte budget `fuel` and a cap `last` on the
final allowed byte, mirroring postcard's `try_take_varint` loop with
its `max_of_last_byte` overflow check. -/
def parseVar (last : Nat) : Nat → List Nat → Option (Nat × List Nat)
  | 0, _ => none
  | _ + 1, [] => none
  | 1, b :: rest =>
      if b < 128 then (if b ≤ last then some (b, rest) else none) else none
  | fuel + 2, b :: rest =>
      if b < 128 then some (b, rest)
      else
        match parseVar last (fuel + 1) rest with
        | some (v, r) => some (b % 128 + 128 * v, r)
        | none => none

/-- Largest value decodable by `parseVar last fuel`:
`128 ^ (fuel - 1) * (last + 1) - 1`. -/
def varMax : Nat → Nat → Nat
  | 0, _ => 0
  | 1, last => last
  | fuel + 2, last => 127 + 128 * varMax (fuel + 1) last

/-- Decoder for a `u16` varint: at most 3 bytes, last byte at most 3. -/
def parseVarU16 : List Nat → Option (Nat × List Nat) := parseVar 3 3

/-- Decoder for a `u32` varint: at most 5 bytes, last byte at most 15. -/
def parseVarU32 : List Nat → Option (Nat × List Nat) := parseVar 15 5

/-- Decoder for a length varint (serde maps `usize` to `u64`): at most
10 bytes, last byte at most 1. -/
def parseVarUsize : List Nat → Option (Nat × List Nat) := parseVar 1 10

/-! ## CRC-16/CCITT-FALSE -/

/-- One shift round of CRC-16/CCITT-FALSE: shift left, xoring in the
polynomial 0x1021 when the top bit was set, in 16-bit arithmetic. -/
def crcRound (c : Nat) : Nat :=
  if 32768 ≤ c then ((c * 2) ^^^ 0x1021) % 65536 else (c * 2) % 65536

/-- One step of CRC-16/CCITT-FALSE: xor the byte into the high end of
the accumulator, then eight shift rounds. -/
def crc16Step (crc b : Nat) : Nat :=
  (List.range 8).foldl (fun c _ => crcRound c) ((crc ^^^ (b * 256)) % 65536)

/-- CRC-16/CCITT-FALSE (`CRC_16_IBM_3740`): polynomial 0x1021, initial
value 0xFFFF, no reflection, xor-out 0. -/
def crc16 (bs : List Nat) : Nat := bs.foldl crc16Step 0xFFFF

/-! ## Message data model (`messages/src/lib.rs`) -/

/-- Protocol version constant `VERSION`. -/
def VERSION : Nat := 1

/-- Shared status enum `UpdateStatus`. -/
inductive UpdateStatus where
  | Ok
  | Retry (expected : Option Nat)
  | Failed
deriving DecidableEq, Repr

/-- Device-to-host payload `MessageTypeMcu`. -/
inductive MessageTypeMcu where
  | Adc (v : Nat)
  | UpdateStartStatus (s : UpdateStatus)
  | UpdateSegmentStatus (s : UpdateStatus)
  | UpdateEndStatus (s : UpdateStatus)
deriving DecidableEq, Repr

/-- Host-to-device payload `MessageTypeHost`. -/
inductive MessageTypeHost where
  | UpdateStart
  | UpdateSegment (id : Nat) (data : List Nat)
  | UpdateEnd
  | Cancel
deriving DecidableEq, Repr

/-- Struct `MessagePayload<T>`: protocol version plus tagged payload. -/
structure MessagePayload (T : Type) where
  version : Nat
  message_type : T
deriving DecidableEq, Repr

/-- Struct `Message<T>`: payload plus trailing CRC-16 checksum. -/
structure Message (T : Type) where
  payload : MessagePayload T
  checksum : Nat
deriving DecidableEq, Repr

/-- Errors a decode can produce: postcard deserialization failure
(malformed or truncated input) or `Error::ChecksumError`. -/
inductive DecodeError where
  | FormatError
  | ChecksumError
deriving DecidableEq, Repr

deriving instance DecidableEq for Except

/-! ## Serializers (postcard `to_allocvec`) -/

/-- Postcard encoding of `Option<u16>`: presence byte then value. -/
def serOptU16 : Option Nat → List Nat
  | none => [0]
  | some v => 1 :: varintEncode v

/-- Postcard encoding of `UpdateStatus`: variant tag then fields. -/
def serStatus : UpdateStatus → List Nat
  | .Ok => [0]
  | .Retry o => 1 :: serOptU16 o
  | .Failed => [2]

/-- Postcard encoding of `MessageTypeMcu`. -/
def serMcuType : MessageTypeMcu → List Nat
  | .Adc v => 0 :: varintEncode v
  | .UpdateStartStatus s => 1 :: serStatus s
  | .UpdateSegmentStatus s => 2 :: serStatus s
  | .UpdateEndStatus s => 3 :: serStatus s

/-- Postcard encoding of `MessageTypeHost`: tag, then fields in order;
a byte slice is a varint length prefix followed by the raw bytes. -/
def serHostType : MessageTypeHost → List Nat
  | .UpdateStart => [0]
  | .UpdateSegment id data => 1 :: (varintEncode id ++ varintEncode data.length ++ data)
  | .UpdateEnd => [2]
  | .Cancel => [3]

/-- Postcard encoding of `MessagePayload<T>`: the `u8` version as one
raw byte, then the payload. -/
def serializePayload (serT : T → List Nat) (p : MessagePayload T) : List Nat :=
  p.version :: serT p.message_type

/-- `Message::new`: fix `version := VERSION` and compute the checksum
as the CRC-16 of the serialized payload. -/
def messageNew (serT : T → List Nat) (mt : T) : Message T :=
  { payload := { version := VERSION, message_type := mt },
    checksum := crc16 (serializePayload serT { version := VERSION, message_type := mt }) }

/-- `Message::serialize`: serialized payload followed by the checksum
as a varint. -/
def messageSerialize (serT : T → List Nat) (m : Message T) : List Nat :=
  serializePayload serT m.payload ++ varintEncode m.checksum

/-- `Message::is_crc_valid`: recompute the CRC-16 over the re-serialized
payload and compare with the stored checksum. -/
def isCrcValid (serT : T → List Nat) (m : Message T) : Bool :=
  m.checksum == crc16 (serializePayload serT m.payload)

/-! ## Parsers (postcard `from_bytes`) -/

/-- Pop one raw byte (postcard `u8`). -/
def parseU8 : List Nat → Option (Nat × List Nat)
  | [] => none
  | b :: rest => some (b, rest)

/-- Take a length-prefixed byte sequence whose length was already read. -/
def parseTake (n : Nat) (l : List Nat) : Option (List Nat × List Nat) :=
  if n ≤ l.length then some (l.take n, l.drop n) else none

/-- Postcard decoding of `Option<u16>`: presence byte 0 or 1. -/
def parseOptU16 : List Nat → Option (Option Nat × List Nat)
  | [] => none
  | 0 :: rest => some (none, rest)
  | 1 :: rest =>
      (match parseVarU16 rest with
       | some (v, r) => some (some v, r)
       | none => none)
  | _ => none

/-- Postcard decoding of `UpdateStatus`. -/
def parseStatus (l : List Nat) : Option (UpdateStatus × List Nat) :=
  match parseVarU32 l with
  | some (0, r) => some (.Ok, r)
  | some (1, r) =>
      (match parseOptU16 r with
       | some (o, r2) => some (.Retry o, r2)
       | none => none)
  | some (2, r) => some (.Failed, r)
  | _ => none

/-- Postcard decoding of `MessageTypeHost`. -/
def parseHostType (l : List Nat) : Option (MessageTypeHost × List Nat) :=
  match parseVarU32 l with
  | some (0, r) => some (.UpdateStart, r)
  | some (1, r) =>
      (match parseVarU16 r with
       | some (id, r2) =>
           (match parseVarUsize r2 with
            | some (len, r3) =>
                (match parseTake len r3 with
                 | some (d, r4) => some (.UpdateSegment id d, r4)
                 | none => none)
            | none => none)
       | none => none)
  | some (2, r) => some (.UpdateEnd, r)
  | some (3, r) => some (.Cancel, r)
  | _ => none

/-- Postcard decoding of `MessageTypeMcu`. -/
def parseMcuType (l : List Nat) : Option (MessageTypeMcu × List Nat) :=
  match parseVarU32 l with
  | some (0, r) =>
      (match parseVarU32 r with
       | some (v, r2) => some (.Adc v, r2)
       | none => none)
  | some (1, r) =>
      (match parseStatus r with
       | some (s, r2) => some (.UpdateStartStatus s, r2)
       | none => none)
  | some (2, r) =>
      (match parseStatus r with
       | some (s, r2) => some (.UpdateSegmentStatus s, r2)
       | none => none)
  | some (3, r) =>
      (match parseStatus r with
       | some (s, r2) => some (.UpdateEndStatus s, r2)
       | none => none)
  | _ => none

/-- Structural parse of a `Message<T>`: version byte, payload, then the
checksum varint; trailing bytes are returned (postcard's `from_bytes`
ignores them). -/
def parseMessage (parT : List Nat → Option (T × List Nat)) (l : List Nat) :
    Option (Message T × List Nat) :=
  match parseU8 l with
  | some (v, r) =>
      (match parT r with
       | some (mt, r2) =>
           (match parseVarU16 r2 with
            | some (ck, r3) => some ({ payload := { version := v, message_type := mt },
                                       checksum := ck }, r3)
            | none => none)
       | none => none)
  | none => none

/-- `Message::deserialize`: structural parse, then the checksum gate; a
structurally valid message with a wrong checksum is a `ChecksumError`,
anything else that fails is a format error. -/
def messageDeserialize (serT : T → List Nat) (parT : List Nat → Option (T × List Nat))
    (l : List Nat) : Except DecodeError (Message T) :=
  match parseMessage parT l with
  | none => .error .FormatError
  | some (m, _) => if isCrcValid serT m then .ok m else .error .ChecksumError

/-- `Message::<MessageTypeHost>` constructor. -/
def hostNew (mt : MessageTypeHost) : Message MessageTypeHost := messageNew serHostType mt

/-- Host-direction serializer. -/
def hostSerialize (m : Message MessageTypeHost) : List Nat := messageSerialize serHostType m

/-- Host-direction deserializer (used by the device). -/
def hostDeserialize (l : List Nat) : Except DecodeError (Message MessageTypeHost) :=
  messageDeserialize serHostType parseHostType l

/-- `Message::<MessageTypeMcu>` constructor. -/
def mcuNew (mt : MessageTypeMcu) : Message MessageTypeMcu := messageNew serMcuType mt

/-- Device-direction serializer. -/
def mcuSerialize (m : Message MessageTypeMcu) : List Nat := messageSerialize serMcuType m

/-- Device-direction deserializer (used by the host flasher). -/
def mcuDeserialize (l : List Nat) : Except DecodeError (Message MessageTypeMcu) :=
  messageDeserialize serMcuType parseMcuType l

/-! ## Representability of field values -/

/-- Representable field values of a host message: `u16` segment id,
byte-valued data of `usize` length. -/
def wfHost : MessageTypeHost → Prop
  | .UpdateSegment id data =>
      id < 65536 ∧ data.length < 2 ^ 64 ∧ ∀ b ∈ data, b < 256
  | _ => True

/-- Representable field values of an `UpdateStatus`. -/
def wfStatus : UpdateStatus → Prop
  | .Retry (some id) => id < 65536
  | _ => True

/-- Representable field values of an MCU message: `u32` ADC reading,
`u16` retry id. -/
def wfMcu : MessageTypeMcu → Prop
  | .Adc v => v < 2 ^ 32
  | .UpdateStartStatus s => wfStatus s
  | .UpdateSegmentStatus s => wfStatus s
  | .UpdateEndStatus s => wfStatus s

/-! ## Device update state machine (`src/uart_update.rs`) -/

/-- States of the `smlang` state machine: `Init` (idle) and
`WaitingForData` (receiving). -/
inductive States where
  | Init
  | WaitingForData
deriving DecidableEq, Repr

/-- Observable storage effects of one step: `EspOta` session opened,
a segment written, the session committed, or the session aborted. -/
inductive StorageEvent where
  | opened
  | wrote (data : List Nat)
  | committed
  | aborted
deriving DecidableEq, Repr

/-- Mutable state of the device worker: machine state, the open OTA
write session (`ota_update`, holding the bytes written so far), and the
`u16` sequencing counter `expected_seg_id`. -/
structure DeviceState where
  state : States
  ota_update : Option (List Nat)
  expected_seg_id : Nat
deriving DecidableEq, Repr

/-- Outcomes of the fallible environment calls made by one step:
`EspOta::initiate_update`, `write`, `complete`, and `abort`. -/
structure DEnv where
  openOk : Bool
  writeOk : Bool
  commitOk : Bool
  abortOk : Bool
deriving DecidableEq, Repr

/-- Result of processing one decoded message: successor state, replies
pushed to the transmit queue, storage effects, whether `esp_restart`
was reached, and whether an `unwrap` panicked (thread death). -/
structure StepOut where
  st : DeviceState
  sent : List (Message MessageTypeMcu)
  events : List StorageEvent
  restarted : Bool
  crashed : Bool
deriving DecidableEq, Repr

/-- Step that leaves the state untouched and emits nothing (the
`continue` / log-and-drop paths of the worker loop). -/
def noOp (s : DeviceState) : StepOut :=
  { st := s, sent := [], events := [], restarted := false, crashed := false }

/-- Step with `crashed` set: an `unwrap()` panicked, killing the worker
thread before any further effect. -/
def crashOut (s : DeviceState) : StepOut :=
  { st := s, sent := [], events := [], restarted := false, crashed := true }

/-- One iteration of the device worker loop on an already-decoded
message, translated arm by arm from the `match msg` in
`uart_update.rs`. -/
def step (env : DEnv) (s : DeviceState) (msg : MessageTypeHost) : StepOut :=
  match msg with
  | .UpdateStart =>
      if s.state = .Init then
        if env.openOk then
          { st := { state := .WaitingForData, ota_update := some [], expected_seg_id := 0 },
            sent := [mcuNew (.UpdateStartStatus .Ok)],
            events := [.opened], restarted := false, crashed := false }
        else crashOut s
      else noOp s
  | .UpdateSegment id data =>
      if s.state = .WaitingForData then
        if s.expected_seg_id ≠ id then
          { st := s,
            sent := [mcuNew (.UpdateSegmentStatus (.Retry (some s.expected_seg_id)))],
            events := [], restarted := false, crashed := false }
        else
          match s.ota_update with
          | none => crashOut s
          | some buf =>
              if env.writeOk then
                { st := { state := .WaitingForData, ota_update := some (buf ++ data),
                          expected_seg_id := (id + 1) % 65536 },
                  sent := [mcuNew (.UpdateSegmentStatus .Ok)],
                  events := [.wrote data], restarted := false, crashed := false }
              else noOp s
      else noOp s
  | .UpdateEnd =>
      if s.state = .WaitingForData then
        match s.ota_update with
        | none => crashOut s
        | some _ =>
            if env.commitOk then
              { st := { state := s.state, ota_update := none,
                        expected_seg_id := s.expected_seg_id },
                sent := [], events := [.committed], restarted := true, crashed := false }
            else crashOut { state := s.state, ota_update := none,
                            expected_seg_id := s.expected_seg_id }
      else noOp s
  | .Cancel =>
      match s.state with
      | .Init => noOp s
      | .WaitingForData =>
          match s.ota_update with
          | none => crashOut s
          | some _ =>
              if env.abortOk then
                { st := { state := .Init, ota_update := none,
                          expected_seg_id := s.expected_seg_id },
                  sent := [], events := [.aborted], restarted := false, crashed := false }
              else crashOut { state := s.state, ota_update := none,
                              expected_seg_id := s.expected_seg_id }

/-- One iteration of the worker loop on a raw UART buffer: decode,
dropping the message on any decode error. -/
def handleRaw (env : DEnv) (s : DeviceState) (bytes : List Nat) : StepOut :=
  match hostDeserialize bytes with
  | .error _ => noOp s
  | .ok m => step env s m.payload.message_type

/-- Run the worker over a list of decoded messages, stopping when the
thread restarts or crashes. -/
def run (env : DEnv) : DeviceState → List MessageTypeHost → DeviceState
  | s, [] => s
  | s, m :: ms =>
      let o := step env s m
      if o.restarted ∨ o.crashed then o.st else run env o.st ms

/-- Environment in which every storage operation succeeds. -/
def envAll : DEnv := { openOk := true, writeOk := true, commitOk := true, abortOk := true }

/-- Initial device state: `Init`, no session, `expected_seg_id = 0`. -/
def initialDevice : DeviceState :=
  { state := .Init, ota_update := none, expected_seg_id := 0 }

/-- Trace of `n` in-order `UpdateSegment` messages with ids
`k, k+1, …, k+n-1`, all carrying data `d`. -/
def segs (d : List Nat) : Nat → Nat → List MessageTypeHost
  | _, 0 => []
  | k, n + 1 => .UpdateSegment k d :: segs d (k + 1) n

/-- Session/sequencing invariant of the device worker: no session while
`Init`, an open session while `WaitingForData` (at most one session
overall, since `ota_update` is a single `Option`), and a `u16`-valued
`expected_seg_id`. -/
def Inv (s : DeviceState) : Prop :=
  (s.state = .Init → s.ota_update = none) ∧
  (s.state = .WaitingForData → s.ota_update.isSome) ∧
  s.expected_seg_id < 65536

/-! ## Host transfer driver (`flasher/src/main.rs`) -/

/-- Errors the chunk-send loop can abort with: the flasher's `Error`
variants, plus `IoErr` standing for a propagated transport or decode
`anyhow` error. -/
inductive HostError where
  | ComWriteFailed
  | ComInvalidResponse
  | ComCriticalError
  | IoErr
deriving DecidableEq, Repr

/-- Outcome of one `send_chunk` attempt, as seen through the injected
transport: a decoded `UpdateSegmentStatus`, some other decoded MCU
message, or a transport/decode failure. -/
inductive Resp where
  | segmentStatus (s : UpdateStatus)
  | otherMsg
  | ioFail
deriving DecidableEq, Repr

/-- Result of `send_chunk`: the decoded status, `ComInvalidResponse`
for a reply that is not an `UpdateSegmentStatus`, or the propagated
transport/decode error. -/
def sendChunk : Resp → Except HostError UpdateStatus
  | .segmentStatus s => .ok s
  | .otherMsg => .error .ComInvalidResponse
  | .ioFail => .error .IoErr

/-- Retry budget `MAX_RETRY` of the chunk-send loop. -/
def MAX_RETRY : Nat := 5

/-- Body of the `'retry` loop for the chunk at cursor `i`, with `rem`
the remaining budget (`MAX_RETRY - retry_cnt`) and `t` the index of the
next reply in the reply stream `env`. Returns the cursor at which `Ok`
was received together with the next stream position, or the abort
error. Translated from the `for retry_cnt in 0..MAX_RETRY+1` loop. -/
def retryLoopAux (env : Nat → Resp) : Nat → Nat → Nat → Except HostError (Nat × Nat)
  | _, _, 0 => .error .ComWriteFailed
  | i, t, rem + 1 =>
      match sendChunk (env t) with
      | .ok .Ok => .ok (i, t + 1)
      | .ok (.Retry (some id)) =>
          if id ≤ i then retryLoopAux env id (t + 1) rem
          else .error .ComCriticalError
      | .ok (.Retry none) => .error .ComCriticalError
      | .ok .Failed => .error .ComCriticalError
      | .error e => .error e

/-- The `'retry` loop entered with `retry_cnt = 0`. -/
def retryLoop (env : Nat → Resp) (i t : Nat) : Except HostError (Nat × Nat) :=
  retryLoopAux env i t MAX_RETRY

/-- One iteration of the outer `while i < chunks.len()` loop: run the
retry loop, then `i += 1` past the acknowledged chunk. -/
def outerStep (env : Nat → Resp) (i t : Nat) : Except HostError (Nat × Nat) :=
  match retryLoop env i t with
  | .ok (j, t2) => .ok (j + 1, t2)
  | .error e => .error e

/-! ## Varint lemmas -/

theorem varintEncodeGo_congr :
    ∀ f1 f2 n, n ≤ f1 → n ≤ f2 → varintEncodeGo f1 n = varintEncodeGo f2 n := by
  intro f1
  induction f1 with
  | zero =>
    intro f2 n h1 _
    have hn : n = 0 := by omega
    cases f2 <;> simp [varintEncodeGo, hn]
  | succ f1 ih =>
    intro f2 n h1 h2
    by_cases h128 : n < 128
    · cases f2 with
      | zero =>
        have hn : n = 0 := by omega
        simp [varintEncodeGo, hn]
      | succ f2 => simp [varintEncodeGo, h128]
    · cases f2 with
      | zero => omega
      | succ f2 =>
        simp only [varintEncodeGo, if_neg h128]
        rw [ih f2 (n / 128) (by omega) (by omega)]

theorem varintEncode_eq (n : Nat) :
    varintEncode n =
      if n < 128 then [n] else (n % 128 + 128) :: varintEncode (n / 128) := by
  unfold varintEncode
  cases n with
  | zero => simp [varintEncodeGo]
  | succ m =>
    by_cases h128 : m + 1 < 128
    · simp [varintEncodeGo, h128]
    · simp only [varintEncodeGo, if_neg h128]
      rw [varintEncodeGo_congr m ((m + 1) / 128) ((m + 1) / 128) (by omega) (by omega)]

theorem varintEncode_of_lt {n : Nat} (h : n < 128) : varintEncode n = [n] := by
  rw [varintEncode_eq]
  simp [h]

theorem varintEncode_of_ge {n : Nat} (h : 128 ≤ n) :
    varintEncode n = (n % 128 + 128) :: varintEncode (n / 128) := by
  rw [varintEncode_eq]
  simp [Nat.not_lt.2 h]

theorem parseVar_encode (last : Nat) (hlast : last < 128) :
    ∀ fuel, 0 < fuel → ∀ n rest, n ≤ varMax fuel last →
      parseVar last fuel (varintEncode n ++ rest) = some (n, rest) := by
  intro fuel
  induction fuel using Nat.strong_induction_on with
  | _ fuel ih =>
    match fuel with
    | 0 => omega
    | 1 =>
      intro _ n rest hn
      have hn1 : n ≤ last := by simpa [varMax] using hn
      rw [varintEncode_of_lt (by omega)]
      simp [parseVar]
      omega
    | fuel + 2 =>
      intro _ n rest hn
      by_cases h128 : n < 128
      · rw [varintEncode_of_lt h128]
        simp [parseVar, h128]
      · rw [varintEncode_of_ge (by omega)]
        have hM : varMax (fuel + 2) last = 127 + 128 * varMax (fuel + 1) last := rfl
        have hdiv : n / 128 ≤ varMax (fuel + 1) last := by omega
        have hrec := ih (fuel + 1) (by omega) (by omega) (n / 128) rest hdiv
        simp only [List.cons_append, parseVar, if_neg (show ¬ n % 128 + 128 < 128 by omega),
          List.append_eq, hrec]
        have heq : (n % 128 + 128) % 128 + 128 * (n / 128) = n := by omega
        rw [heq]

theorem parseVarU16_encode {n : Nat} (h : n < 65536) (rest : List Nat) :
    parseVarU16 (varintEncode n ++ rest) = some (n, rest) :=
  parseVar_encode 3 (by omega) 3 (by omega) n rest
    (by have h3 : varMax 3 3 = 65535 := by decide
        omega)

theorem parseVarU32_encode {n : Nat} (h : n < 2 ^ 32) (rest : List Nat) :
    parseVarU32 (varintEncode n ++ rest) = some (n, rest) :=
  parseVar_encode 15 (by omega) 5 (by omega) n rest
    (by have h5 : varMax 5 15 = 2 ^ 32 - 1 := by decide
        omega)

theorem parseVarUsize_encode {n : Nat} (h : n < 2 ^ 64) (rest : List Nat) :
    parseVarUsize (varintEncode n ++ rest) = some (n, rest) :=
  parseVar_encode 1 (by omega) 10 (by omega) n rest
    (by have h10 : varMax 10 1 = 2 ^ 64 - 1 := by decide
        omega)

theorem parseTake_append (l rest : List Nat) :
    parseTake l.length (l ++ rest) = some (l, rest) := by
  simp [parseTake]

/-! ## CRC bounds -/

theorem crcRound_lt (c : Nat) : crcRound c < 65536 := by
  unfold crcRound
  split <;> exact Nat.mod_lt _ (by omega)

theorem crc16Step_lt (c b : Nat) : crc16Step c b < 65536 := by
  have hr : List.range 8 = [0, 1, 2, 3, 4, 5, 6, 7] := by decide
  unfold crc16Step
  rw [hr]
  simp only [List.foldl]
  exact crcRound_lt _

theorem foldl_crc_lt (bs : List Nat) : ∀ c : Nat, c < 65536 →
    bs.foldl crc16Step c < 65536 := by
  induction bs with
  | nil => intro c h; simpa using h
  | cons b bs ih =>
    intro c _
    rw [List.foldl_cons]
    exact ih _ (crc16Step_lt c b)

theorem crc16_lt (bs : List Nat) : crc16 bs < 65536 :=
  foldl_crc_lt bs 0xFFFF (by omega)

set_option maxRecDepth 10000 in
/-- C2: serializing `Message::new(UpdateStart)` with protocol version 1
yields exactly `01 00 BE 5C`; `Message::new(Cancel)` yields exactly
`01 03 DD 3C`; and `Message::new(UpdateSegment(666, [01 02 03 FF]))`
yields exactly `01 01 9A 05 04 01 02 03 FF BE 84 01` (version byte,
varint tag, varint id 666 as `9A 05`, varint length prefix `04`, raw
payload bytes, CRC-16/CCITT-FALSE checksum as varint `BE 84 01`). -/
theorem c2_byte_exact_encodings :
    hostSerialize (hostNew .UpdateStart) = [0x01, 0x00, 0xBE, 0x5C] ∧
    hostSerialize (hostNew .Cancel) = [0x01, 0x03, 0xDD, 0x3C] ∧
    hostSerialize (hostNew (.UpdateSegment 666 [0x01, 0x02, 0x03, 0xFF])) =
      [0x01, 0x01, 0x9A, 0x05, 0x04, 0x01, 0x02, 0x03, 0xFF, 0xBE, 0x84, 0x01] := by
  refine ⟨by decide, by decide, by decide⟩

/-! ## Codec roundtrip -/

theorem parseVarU32_cons {k : Nat} (h : k < 128) (rest : List Nat) :
    parseVarU32 (k :: rest) = some (k, rest) := by
  show parseVar 15 5 (k :: rest) = some (k, rest)
  simp [parseVar, h]

theorem parseOptU16_ser (o : Option Nat) (ho : ∀ v, o = some v → v < 65536)
    (rest : List Nat) : parseOptU16 (serOptU16 o ++ rest) = some (o, rest) := by
  cases o with
  | none => rfl
  | some v =>
    simp only [serOptU16, List.cons_append, parseOptU16,
      parseVarU16_encode (ho v rfl) rest]

theorem parseStatus_ser (s : UpdateStatus) (hs : wfStatus s) (rest : List Nat) :
    parseStatus (serStatus s ++ rest) = some (s, rest) := by
  cases s with
  | Ok =>
    simp only [serStatus, List.cons_append, List.nil_append, parseStatus,
      parseVarU32_cons (show (0 : Nat) < 128 by omega) rest]
  | Retry o =>
    have ho : ∀ v, o = some v → v < 65536 := by
      intro v hv
      subst hv
      simpa [wfStatus] using hs
    simp only [serStatus, List.cons_append, List.append_assoc, parseStatus,
      parseVarU32_cons (show (1 : Nat) < 128 by omega), parseOptU16_ser o ho rest]
  | Failed =>
    simp only [serStatus, List.cons_append, List.nil_append, parseStatus,
      parseVarU32_cons (show (2 : Nat) < 128 by omega) rest]

theorem parseHostType_ser (mt : MessageTypeHost) (h : wfHost mt) (rest : List Nat) :
    parseHostType (serHostType mt ++ rest) = some (mt, rest) := by
  cases mt with
  | UpdateStart =>
    simp only [serHostType, List.cons_append, List.nil_append, parseHostType,
      parseVarU32_cons (show (0 : Nat) < 128 by omega) rest]
  | UpdateSegment id data =>
    obtain ⟨hid, hlen, -⟩ := h
    simp only [serHostType, List.cons_append, List.append_assoc, parseHostType,
      parseVarU32_cons (show (1 : Nat) < 128 by omega), parseVarU16_encode hid,
      parseVarUsize_encode hlen, parseTake_append]
  | UpdateEnd =>
    simp only [serHostType, List.cons_append, List.nil_append, parseHostType,
      parseVarU32_cons (show (2 : Nat) < 128 by omega) rest]
  | Cancel =>
    simp only [serHostType, List.cons_append, List.nil_append, parseHostType,
      parseVarU32_cons (show (3 : Nat) < 128 by omega) rest]

theorem parseMcuType_ser (mt : MessageTypeMcu) (h : wfMcu mt) (rest : List Nat) :
    parseMcuType (serMcuType mt ++ rest) = some (mt, rest) := by
  cases mt with
  | Adc v =>
    simp only [serMcuType, List.cons_append, parseMcuType,
      parseVarU32_cons (show (0 : Nat) < 128 by omega), parseVarU32_encode h rest]
  | UpdateStartStatus s =>
    simp only [serMcuType, List.cons_append, parseMcuType,
      parseVarU32_cons (show (1 : Nat) < 128 by omega), parseStatus_ser s h rest]
  | UpdateSegmentStatus s =>
    simp only [serMcuType, List.cons_append, parseMcuType,
      parseVarU32_cons (show (2 : Nat) < 128 by omega), parseStatus_ser s h rest]
  | UpdateEndStatus s =>
    simp only [serMcuType, List.cons_append, parseMcuType,
      parseVarU32_cons (show (3 : Nat) < 128 by omega), parseStatus_ser s h rest]

theorem parseMessage_serialize (serT : T → List Nat)
    (parT : List Nat → Option (T × List Nat)) (mt : T)
    (hpar : ∀ rest, parT (serT mt ++ rest) = some (mt, rest)) :
    parseMessage parT (messageSerialize serT (messageNew serT mt)) =
      some (messageNew serT mt, []) := by
  have hck := parseVarU16_encode (crc16_lt (VERSION :: serT mt)) []
  rw [List.append_nil] at hck
  simp only [messageSerialize, messageNew, serializePayload, List.cons_append,
    parseMessage, parseU8, hpar, hck]

theorem deserialize_serialize (serT : T → List Nat)
    (parT : List Nat → Option (T × List Nat)) (mt : T)
    (hpar : ∀ rest, parT (serT mt ++ rest) = some (mt, rest)) :
    messageDeserialize serT parT (messageSerialize serT (messageNew serT mt)) =
      .ok (messageNew serT mt) := by
  rw [messageDeserialize, parseMessage_serialize serT parT mt hpar]
  simp [isCrcValid, messageNew, serializePayload]

/-- C1: codec round-trip — for every representable `(version, payload)`
pair (every `MessageTypeHost` and `MessageTypeMcu` variant with any
field values), deserializing the bytes produced by serializing the
message constructed from that payload yields the original version, tag,
and fields unchanged. -/
theorem c1_codec_roundtrip :
    (∀ mt : MessageTypeHost, wfHost mt →
      hostDeserialize (hostSerialize (hostNew mt)) = .ok (hostNew mt)) ∧
    (∀ mt : MessageTypeMcu, wfMcu mt →
      mcuDeserialize (mcuSerialize (mcuNew mt)) = .ok (mcuNew mt)) := by
  constructor
  · intro mt h
    exact deserialize_serialize serHostType parseHostType mt (parseHostType_ser mt h)
  · intro mt h
    exact deserialize_serialize serMcuType parseMcuType mt (parseMcuType_ser mt h)

set_option maxRecDepth 10000 in
/-- Witness for C1 at concrete representable payloads. -/
theorem c1_codec_roundtrip_witness :
    hostDeserialize (hostSerialize (hostNew (.UpdateSegment 666 [1, 2, 3, 255]))) =
        .ok (hostNew (.UpdateSegment 666 [1, 2, 3, 255])) ∧
    mcuDeserialize (mcuSerialize (mcuNew (.UpdateSegmentStatus (.Retry (some 666))))) =
        .ok (mcuNew (.UpdateSegmentStatus (.Retry (some 666)))) :=
  ⟨c1_codec_roundtrip.1 _ ⟨by omega, by decide, by decide⟩,
   c1_codec_roundtrip.2 _ (by simp [wfMcu, wfStatus])⟩

/-! ## Checksum gate on decode -/

theorem deserialize_ok_crc (serT : T → List Nat) (parT : List Nat → Option (T × List Nat))
    (l : List Nat) (m : Message T) (h : messageDeserialize serT parT l = .ok m) :
    m.checksum = crc16 (serializePayload serT m.payload) := by
  cases hpm : parseMessage parT l with
  | none => simp [messageDeserialize, hpm] at h
  | some pr =>
    obtain ⟨p, rest⟩ := pr
    simp only [messageDeserialize, hpm] at h
    by_cases hv : isCrcValid serT p
    · rw [if_pos hv] at h
      obtain rfl : p = m := Except.ok.inj h
      simpa [isCrcValid, beq_iff_eq] using hv
    · simp [if_neg hv] at h

theorem deserialize_bad_crc (serT : T → List Nat) (parT : List Nat → Option (T × List Nat))
    (l : List Nat) (m : Message T) (rest : List Nat)
    (hp : parseMessage parT l = some (m, rest))
    (hbad : m.checksum ≠ crc16 (serializePayload serT m.payload)) :
    messageDeserialize serT parT l = .error .ChecksumError := by
  simp [messageDeserialize, hp, isCrcValid, hbad]

theorem deserialize_no_parse (serT : T → List Nat) (parT : List Nat → Option (T × List Nat))
    (l : List Nat) (hp : parseMessage parT l = none) :
    messageDeserialize serT parT l = .error .FormatError := by
  simp [messageDeserialize, hp]

/-- C6: deserialize accepts a byte sequence only if the trailing
checksum equals the CRC-16/CCITT-FALSE of the serialized
`(version, payload)` bytes, recomputed independently; an input that
parses structurally but whose recomputed checksum differs yields a
`ChecksumError` distinct from the `FormatError` produced for malformed
or truncated input. -/
theorem c6_checksum_on_decode :
    (∀ l m, hostDeserialize l = .ok m →
      m.checksum = crc16 (serializePayload serHostType m.payload)) ∧
    (∀ l m, mcuDeserialize l = .ok m →
      m.checksum = crc16 (serializePayload serMcuType m.payload)) ∧
    (∀ l m rest, parseMessage parseHostType l = some (m, rest) →
      m.checksum ≠ crc16 (serializePayload serHostType m.payload) →
      hostDeserialize l = .error .ChecksumError) ∧
    (∀ l m rest, parseMessage parseMcuType l = some (m, rest) →
      m.checksum ≠ crc16 (serializePayload serMcuType m.payload) →
      mcuDeserialize l = .error .ChecksumError) ∧
    (∀ l, parseMessage parseHostType l = none → hostDeserialize l = .error .FormatError) ∧
    (∀ l, parseMessage parseMcuType l = none → mcuDeserialize l = .error .FormatError) ∧
    DecodeError.ChecksumError ≠ DecodeError.FormatError :=
  ⟨fun l m h => deserialize_ok_crc serHostType parseHostType l m h,
   fun l m h => deserialize_ok_crc serMcuType parseMcuType l m h,
   fun l m rest hp hbad => deserialize_bad_crc serHostType parseHostType l m rest hp hbad,
   fun l m rest hp hbad => deserialize_bad_crc serMcuType parseMcuType l m rest hp hbad,
   fun l hp => deserialize_no_parse serHostType parseHostType l hp,
   fun l hp => deserialize_no_parse serMcuType parseMcuType l hp,
   by decide⟩

set_option maxRecDepth 10000 in
/-- Witness for C6: a decoded valid message satisfies the CRC
invariant; a structurally valid host frame whose stored checksum is 0
is rejected as `ChecksumError`; a truncated frame is a `FormatError`. -/
theorem c6_checksum_on_decode_witness :
    ({ payload := { version := 1, message_type := .UpdateStart },
       checksum := 11838 } : Message MessageTypeHost).checksum =
        crc16 (serializePayload serHostType
          ({ payload := { version := 1, message_type := .UpdateStart },
             checksum := 11838 } : Message MessageTypeHost).payload) ∧
    hostDeserialize [1, 0, 0, 0] = .error .ChecksumError ∧
    hostDeserialize [1, 0] = .error .FormatError :=
  ⟨c6_checksum_on_decode.1 [1, 0, 190, 92] _ (by decide),
   c6_checksum_on_decode.2.2.1 [1, 0, 0, 0]
     { payload := { version := 1, message_type := .UpdateStart }, checksum := 0 } [0]
     (by decide) (by decide),
   c6_checksum_on_decode.2.2.2.2.1 [1, 0] (by decide)⟩

/-! ## Device state machine lemmas -/

theorem step_inorder_segment (buf d : List Nat) (k : Nat) :
    step envAll { state := .WaitingForData, ota_update := some buf, expected_seg_id := k }
        (.UpdateSegment k d) =
      { st := { state := .WaitingForData, ota_update := some (buf ++ d),
                expected_seg_id := (k + 1) % 65536 },
        sent := [mcuNew (.UpdateSegmentStatus .Ok)],
        events := [.wrote d], restarted := false, crashed := false } := by
  simp [step, envAll]

theorem run_segs : ∀ n k buf, k < 65536 → k + n ≤ 65536 →
    run envAll { state := .WaitingForData, ota_update := some buf, expected_seg_id := k }
        (segs [] k n) =
      { state := .WaitingForData, ota_update := some buf,
        expected_seg_id := (k + n) % 65536 } := by
  intro n
  induction n with
  | zero =>
    intro k buf hk _
    simp [segs, run, Nat.mod_eq_of_lt hk]
  | succ n ih =>
    intro k buf hk hkn
    rw [segs, run]
    rw [step_inorder_segment buf [] k]
    simp only [List.append_nil]
    by_cases hk1 : k + 1 < 65536
    · rw [Nat.mod_eq_of_lt hk1]
      simp only [Bool.false_eq_true, or_self, if_false]
      rw [ih (k + 1) buf hk1 (by omega)]
      have heq : k + 1 + n = k + (n + 1) := by omega
      rw [heq]
    · have hn0 : n = 0 := by omega
      have hk2 : k + 1 = 65536 := by omega
      subst hn0
      simp [segs, run, hk2]

theorem reach_65535 :
    run envAll initialDevice (.UpdateStart :: segs [] 0 65535) =
      { state := .WaitingForData, ota_update := some [], expected_seg_id := 65535 } := by
  rw [run]
  have hstart : step envAll initialDevice .UpdateStart =
      { st := { state := .WaitingForData, ota_update := some [], expected_seg_id := 0 },
        sent := [mcuNew (.UpdateStartStatus .Ok)],
        events := [.opened], restarted := false, crashed := false } := by
    simp [step, initialDevice, envAll]
  rw [hstart]
  simp only [Bool.false_eq_true, or_self, if_false]
  have h := run_segs 65535 0 [] (by omega) (by omega)
  norm_num at h
  exact h

/-- Counterexample to C3 as stated: the state with
`expected_seg_id = 65535` is reachable (an `UpdateStart` followed by
65535 in-order segments), and there the successful write of segment
65535 sets `expected_seg_id` to 0 — the `u16` addition `id + 1` wraps —
not to `expected_seg_id + 1 = 65536` as the claim requires. -/
theorem c3_counterexample :
    run envAll initialDevice (.UpdateStart :: segs [] 0 65535) =
      { state := .WaitingForData, ota_update := some [], expected_seg_id := 65535 } ∧
    (step envAll { state := .WaitingForData, ota_update := some [], expected_seg_id := 65535 }
        (.UpdateSegment 65535 [])).sent = [mcuNew (.UpdateSegmentStatus .Ok)] ∧
    (step envAll { state := .WaitingForData, ota_update := some [], expected_seg_id := 65535 }
        (.UpdateSegment 65535 [])).st.expected_seg_id = 0 ∧
    (step envAll { state := .WaitingForData, ota_update := some [], expected_seg_id := 65535 }
        (.UpdateSegment 65535 [])).st.expected_seg_id ≠ 65535 + 1 := by
  refine ⟨reach_65535, ?_, ?_, ?_⟩ <;> simp [step_inorder_segment]

/-- C3 (amended): in `Receiving` (`WaitingForData`), on
`UpdateSegment(id, data)` with `id = expected_seg_id` and a successful
storage write, the device appends `data` to the open session, sets
`expected_seg_id` to `id + 1` modulo 2^16 (the `u16` increment, which
wraps to 0 after segment 65535), replies `UpdateSegmentStatus(Ok)` and
stays in `Receiving`; with `id ≠ expected_seg_id` it does not write,
replies `UpdateSegmentStatus(Retry(Some(expected_seg_id)))`, leaves
`expected_seg_id` unchanged and stays in `Receiving`. -/
theorem c3_segment_sequencing (env : DEnv) (s : DeviceState) (id : Nat) (d : List Nat)
    (hw : s.state = .WaitingForData) (hwr : env.writeOk = true) :
    (∀ buf, s.ota_update = some buf → id = s.expected_seg_id →
      step env s (.UpdateSegment id d) =
        { st := { state := .WaitingForData, ota_update := some (buf ++ d),
                  expected_seg_id := (id + 1) % 65536 },
          sent := [mcuNew (.UpdateSegmentStatus .Ok)],
          events := [.wrote d], restarted := false, crashed := false }) ∧
    (id ≠ s.expected_seg_id →
      step env s (.UpdateSegment id d) =
        { st := s,
          sent := [mcuNew (.UpdateSegmentStatus (.Retry (some s.expected_seg_id)))],
          events := [], restarted := false, crashed := false }) := by
  constructor
  · intro buf hbuf hid
    subst hid
    simp [step, hw, hbuf, hwr]
  · intro hid
    have hne : s.expected_seg_id ≠ id := fun h => hid h.symm
    simp [step, hw, hne]

/-- Witness for C3 (amended) at a concrete in-order and a concrete
out-of-order segment. -/
theorem c3_segment_sequencing_witness :
    step envAll { state := .WaitingForData, ota_update := some [], expected_seg_id := 0 }
        (.UpdateSegment 0 [5]) =
      { st := { state := .WaitingForData, ota_update := some [5], expected_seg_id := 1 },
        sent := [mcuNew (.UpdateSegmentStatus .Ok)],
        events := [.wrote [5]], restarted := false, crashed := false } ∧
    step envAll { state := .WaitingForData, ota_update := some [], expected_seg_id := 1 }
        (.UpdateSegment 2 [5]) =
      { st := { state := .WaitingForData, ota_update := some [], expected_seg_id := 1 },
        sent := [mcuNew (.UpdateSegmentStatus (.Retry (some 1)))],
        events := [], restarted := false, crashed := false } :=
  ⟨(c3_segment_sequencing envAll
      { state := .WaitingForData, ota_update := some [], expected_seg_id := 0 }
      0 [5] rfl rfl).1 [] rfl rfl,
   (c3_segment_sequencing envAll
      { state := .WaitingForData, ota_update := some [], expected_seg_id := 1 }
      2 [5] rfl rfl).2 (by decide)⟩

/-- C7: receiving `Cancel` in either `Idle` or `Receiving` leaves the
machine in `Idle`; an open write session is aborted (released, never
committed) and no reply is sent. -/
theorem c7_cancel_to_idle (env : DEnv) (s : DeviceState) (hInv : Inv s)
    (hab : env.abortOk = true) :
    (step env s .Cancel).st.state = .Init ∧
    (step env s .Cancel).st.ota_update = none ∧
    (step env s .Cancel).sent = [] ∧
    (step env s .Cancel).crashed = false ∧
    (step env s .Cancel).restarted = false ∧
    StorageEvent.committed ∉ (step env s .Cancel).events ∧
    (∀ buf, s.ota_update = some buf → (step env s .Cancel).events = [.aborted]) ∧
    (s.ota_update = none → (step env s .Cancel).events = []) := by
  obtain ⟨hI, hW, -⟩ := hInv
  cases hs : s.state with
  | Init =>
    have hn := hI hs
    simp [step, hs, noOp, hn]
  | WaitingForData =>
    obtain ⟨buf, hbuf⟩ := Option.isSome_iff_exists.mp (hW hs)
    simp [step, hs, hbuf, hab]

/-- Witness for C7: cancelling from a concrete `Receiving` state with
an open session. -/
theorem c7_cancel_to_idle_witness :
    (step envAll { state := .WaitingForData, ota_update := some [3], expected_seg_id := 4 }
        .Cancel).st.state = .Init ∧
    (step envAll { state := .WaitingForData, ota_update := some [3], expected_seg_id := 4 }
        .Cancel).st.ota_update = none ∧
    (step envAll { state := .WaitingForData, ota_update := some [3], expected_seg_id := 4 }
        .Cancel).sent = [] ∧
    StorageEvent.committed ∉
      (step envAll { state := .WaitingForData, ota_update := some [3], expected_seg_id := 4 }
        .Cancel).events :=
  have h := c7_cancel_to_idle envAll
    { state := .WaitingForData, ota_update := some [3], expected_seg_id := 4 }
    ⟨by simp, by simp, by decide⟩ rfl
  ⟨h.1, h.2.1, h.2.2.1, h.2.2.2.2.2.1⟩

/-- Counterexample to C8 as stated: in the reachable state with
`expected_seg_id = 65535`, processing the in-order segment 65535 (not
an `UpdateStart`) decreases `expected_seg_id` from 65535 to 0, because
the `u16` addition `expected_seg_id = id + 1` wraps. -/
theorem c8_counterexample :
    run envAll initialDevice (.UpdateStart :: segs [] 0 65535) =
      { state := .WaitingForData, ota_update := some [], expected_seg_id := 65535 } ∧
    (step envAll { state := .WaitingForData, ota_update := some [], expected_seg_id := 65535 }
        (.UpdateSegment 65535 [17])).st.expected_seg_id <
      ({ state := .WaitingForData, ota_update := some [], expected_seg_id := 65535 }
        : DeviceState).expected_seg_id ∧
    (MessageTypeHost.UpdateSegment 65535 [17]) ≠ .UpdateStart ∧
    (MessageTypeHost.UpdateSegment 65535 [17]) ≠ .Cancel := by
  refine ⟨reach_65535, ?_, by decide, by decide⟩
  simp [step_inorder_segment]

/-- C8 (amended): the device has at most one active session, tied to
the machine state (none while `Idle`, exactly one open while
`Receiving`), and `expected_seg_id` is a `u16` that never decreases
across a processed message except by being reset to 0 by `UpdateStart`
or by the `u16` wrap-around of the increment after segment 65535. -/
theorem c8_sequencing_invariant (env : DEnv) (s : DeviceState) (m : MessageTypeHost)
    (hInv : Inv s) :
    ((step env s m).crashed = false → (step env s m).restarted = false →
      Inv (step env s m).st) ∧
    (s.expected_seg_id ≤ (step env s m).st.expected_seg_id ∨
      (m = .UpdateStart ∧ (step env s m).st.expected_seg_id = 0) ∨
      (s.expected_seg_id = 65535 ∧ (step env s m).st.expected_seg_id = 0)) := by
  obtain ⟨hI, hW, hlt⟩ := hInv
  cases m with
  | UpdateStart =>
    by_cases hs : s.state = .Init
    · by_cases ho : env.openOk = true
      · constructor
        · intro _ _
          simp [step, hs, ho, Inv]
        · right; left
          simp [step, hs, ho]
      · have ho2 : env.openOk = false := by
          cases h : env.openOk
          · rfl
          · exact absurd h ho
        constructor
        · intro hc
          simp [step, hs, ho2, crashOut] at hc
        · left
          simp [step, hs, ho2, crashOut]
    · constructor
      · intro _ _
        have hst : (step env s .UpdateStart).st = s := by simp [step, hs, noOp]
        rw [hst]
        exact ⟨hI, hW, hlt⟩
      · left
        simp [step, hs, noOp]
  | UpdateSegment id d =>
    by_cases hs : s.state = .WaitingForData
    · by_cases hid : s.expected_seg_id ≠ id
      · constructor
        · intro _ _
          have hst : (step env s (.UpdateSegment id d)).st = s := by simp [step, hs, hid]
          rw [hst]
          exact ⟨hI, hW, hlt⟩
        · left
          simp [step, hs, hid]
      · obtain ⟨buf, hbuf⟩ := Option.isSome_iff_exists.mp (hW hs)
        have hid2 : id = s.expected_seg_id := by omega
        subst hid2
        by_cases hwr : env.writeOk = true
        · constructor
          · intro _ _
            simp [step, hs, hbuf, hwr, Inv]
            omega
          · simp [step, hs, hbuf, hwr]
            omega
        · have hwr2 : env.writeOk = false := by
            cases h : env.writeOk
            · rfl
            · exact absurd h hwr
          constructor
          · intro _ _
            have hst : (step env s (.UpdateSegment s.expected_seg_id d)).st = s := by
              simp [step, hs, hbuf, hwr2, noOp]
            rw [hst]
            exact ⟨hI, hW, hlt⟩
          · left
            simp [step, hs, hbuf, hwr2, noOp]
    · constructor
      · intro _ _
        have hst : (step env s (.UpdateSegment id d)).st = s := by simp [step, hs, noOp]
        rw [hst]
        exact ⟨hI, hW, hlt⟩
      · left
        simp [step, hs, noOp]
  | UpdateEnd =>
    by_cases hs : s.state = .WaitingForData
    · obtain ⟨buf, hbuf⟩ := Option.isSome_iff_exists.mp (hW hs)
      by_cases hco : env.commitOk = true
      · constructor
        · intro _ hr
          simp [step, hs, hbuf, hco] at hr
        · left
          simp [step, hs, hbuf, hco]
      · have hco2 : env.commitOk = false := by
          cases h : env.commitOk
          · rfl
          · exact absurd h hco
        constructor
        · intro hc
          simp [step, hs, hbuf, hco2, crashOut] at hc
        · left
          simp [step, hs, hbuf, hco2, crashOut]
    · constructor
      · intro _ _
        have hst : (step env s .UpdateEnd).st = s := by simp [step, hs, noOp]
        rw [hst]
        exact ⟨hI, hW, hlt⟩
      · left
        simp [step, hs, noOp]
  | Cancel =>
    cases hs : s.state with
    | Init =>
      constructor
      · intro _ _
        have hst : (step env s .Cancel).st = s := by simp [step, hs, noOp]
        rw [hst]
        exact ⟨hI, hW, hlt⟩
      · left
        simp [step, hs, noOp]
    | WaitingForData =>
      obtain ⟨buf, hbuf⟩ := Option.isSome_iff_exists.mp (hW hs)
      by_cases hab : env.abortOk = true
      · constructor
        · intro _ _
          simp [step, hs, hbuf, hab, Inv]
          omega
        · left
          simp [step, hs, hbuf, hab]
      · have hab2 : env.abortOk = false := by
          cases h : env.abortOk
          · rfl
          · exact absurd h hab
        constructor
        · intro hc
          simp [step, hs, hbuf, hab2, crashOut] at hc
        · left
          simp [step, hs, hbuf, hab2, crashOut]

/-- Witness for C8 (amended) on a concrete in-order segment step from a
state satisfying the invariant. -/
theorem c8_sequencing_invariant_witness :
    (Inv (step envAll { state := .WaitingForData, ota_update := some [], expected_seg_id := 3 }
        (.UpdateSegment 3 [9])).st) ∧
    (({ state := .WaitingForData, ota_update := some [], expected_seg_id := 3 }
        : DeviceState).expected_seg_id ≤
      (step envAll { state := .WaitingForData, ota_update := some [], expected_seg_id := 3 }
        (.UpdateSegment 3 [9])).st.expected_seg_id ∨
      ((MessageTypeHost.UpdateSegment 3 [9]) = .UpdateStart ∧
        (step envAll { state := .WaitingForData, ota_update := some [], expected_seg_id := 3 }
          (.UpdateSegment 3 [9])).st.expected_seg_id = 0) ∨
      (({ state := .WaitingForData, ota_update := some [], expected_seg_id := 3 }
          : DeviceState).expected_seg_id = 65535 ∧
        (step envAll { state := .WaitingForData, ota_update := some [], expected_seg_id := 3 }
          (.UpdateSegment 3 [9])).st.expected_seg_id = 0)) :=
  have h := c8_sequencing_invariant envAll
    { state := .WaitingForData, ota_update := some [], expected_seg_id := 3 }
    (.UpdateSegment 3 [9]) ⟨by simp, by simp, by decide⟩
  ⟨h.1 (by decide) (by decide), h.2⟩

/-- C9: messages that fail to decode, and messages inconsistent with
the current state (`UpdateStart` while `Receiving`, `UpdateSegment` or
`UpdateEnd` while `Idle`), are dropped: no reply, no state change, no
storage effect, no crash. -/
theorem c9_invalid_dropped :
    (∀ env s l e, hostDeserialize l = .error e → handleRaw env s l = noOp s) ∧
    (∀ env s, s.state ≠ .Init → step env s .UpdateStart = noOp s) ∧
    (∀ env s id d, s.state ≠ .WaitingForData → step env s (.UpdateSegment id d) = noOp s) ∧
    (∀ env s, s.state ≠ .WaitingForData → step env s .UpdateEnd = noOp s) := by
  refine ⟨?_, ?_, ?_, ?_⟩
  · intro env s l e h
    simp [handleRaw, h]
  · intro env s h
    simp [step, h]
  · intro env s id d h
    simp [step, h]
  · intro env s h
    simp [step, h]

/-- Witness for C9: the empty buffer fails to decode and is dropped; a
segment and an end while `Idle`, and a start while `Receiving`, are
dropped. -/
theorem c9_invalid_dropped_witness :
    handleRaw envAll initialDevice [] = noOp initialDevice ∧
    step envAll initialDevice (.UpdateSegment 0 []) = noOp initialDevice ∧
    step envAll initialDevice .UpdateEnd = noOp initialDevice ∧
    step envAll { state := .WaitingForData, ota_update := some [], expected_seg_id := 0 }
        .UpdateStart =
      noOp { state := .WaitingForData, ota_update := some [], expected_seg_id := 0 } :=
  ⟨c9_invalid_dropped.1 envAll initialDevice [] .FormatError (by decide),
   c9_invalid_dropped.2.2.1 envAll initialDevice 0 [] (by decide),
   c9_invalid_dropped.2.2.2 envAll initialDevice (by decide),
   c9_invalid_dropped.2.1 envAll
     { state := .WaitingForData, ota_update := some [], expected_seg_id := 0 } (by decide)⟩

/-- C10: if the storage write of an in-order segment fails while
`Receiving`, the device sends no reply at all, does not advance
`expected_seg_id`, does not abort the session, and remains in
`Receiving` — the step is exactly a no-op. -/
theorem c10_write_failure_silent (env : DEnv) (s : DeviceState) (id : Nat) (d : List Nat)
    (hw : s.state = .WaitingForData) (hid : id = s.expected_seg_id)
    (hbuf : s.ota_update.isSome) (hfail : env.writeOk = false) :
    step env s (.UpdateSegment id d) = noOp s := by
  obtain ⟨buf, hb⟩ := Option.isSome_iff_exists.mp hbuf
  subst hid
  simp [step, hw, hb, hfail, noOp]

/-- Witness for C10 in a concrete `Receiving` state with a failing
write. -/
theorem c10_write_failure_silent_witness :
    step { openOk := true, writeOk := false, commitOk := true, abortOk := true }
        { state := .WaitingForData, ota_update := some [], expected_seg_id := 0 }
        (.UpdateSegment 0 [7]) =
      noOp { state := .WaitingForData, ota_update := some [], expected_seg_id := 0 } :=
  c10_write_failure_silent
    { openOk := true, writeOk := false, commitOk := true, abortOk := true }
    { state := .WaitingForData, ota_update := some [], expected_seg_id := 0 }
    0 [7] rfl rfl (by decide) rfl

/-! ## Host transfer driver -/

/-- C4: host reply dispatch for the chunk at cursor `i` — on
`UpdateSegmentStatus(Ok)` the host advances `i` by 1; on
`Retry(Some(expected_id))` with `expected_id <= i` it sets
`i = expected_id` and resends from there (never from `i + 1`); on
`Retry(Some(expected_id))` with `expected_id > i`, on `Retry(None)`, or
on `Failed`, it aborts the whole transfer with the fatal protocol error
`ComCriticalError`. -/
theorem c4_reply_dispatch :
    (∀ env i t, env t = .segmentStatus .Ok →
      outerStep env i t = .ok (i + 1, t + 1)) ∧
    (∀ env i t id rem, env t = .segmentStatus (.Retry (some id)) → id ≤ i →
      retryLoopAux env i t (rem + 1) = retryLoopAux env id (t + 1) rem) ∧
    (∀ env i t id rem, env t = .segmentStatus (.Retry (some id)) → i < id →
      retryLoopAux env i t (rem + 1) = .error .ComCriticalError) ∧
    (∀ env i t rem, env t = .segmentStatus (.Retry none) →
      retryLoopAux env i t (rem + 1) = .error .ComCriticalError) ∧
    (∀ env i t rem, env t = .segmentStatus .Failed →
      retryLoopAux env i t (rem + 1) = .error .ComCriticalError) := by
  refine ⟨?_, ?_, ?_, ?_, ?_⟩
  · intro env i t h
    simp [outerStep, retryLoop, MAX_RETRY, retryLoopAux, h, sendChunk]
  · intro env i t id rem h hle
    simp [retryLoopAux, h, sendChunk, hle]
  · intro env i t id rem h hgt
    simp [retryLoopAux, h, sendChunk, Nat.not_le.mpr hgt]
  · intro env i t rem h
    simp [retryLoopAux, h, sendChunk]
  · intro env i t rem h
    simp [retryLoopAux, h, sendChunk]

/-- Witness for C4 at concrete replies and cursors. -/
theorem c4_reply_dispatch_witness :
    outerStep (fun _ => .segmentStatus .Ok) 0 0 = .ok (1, 1) ∧
    retryLoopAux (fun _ => .segmentStatus (.Retry (some 0))) 3 0 5 =
      retryLoopAux (fun _ => .segmentStatus (.Retry (some 0))) 0 1 4 ∧
    retryLoopAux (fun _ => .segmentStatus (.Retry (some 2))) 1 0 5 =
      .error .ComCriticalError ∧
    retryLoopAux (fun _ => .segmentStatus (.Retry none)) 0 0 5 =
      .error .ComCriticalError ∧
    retryLoopAux (fun _ => .segmentStatus .Failed) 0 0 5 = .error .ComCriticalError :=
  ⟨c4_reply_dispatch.1 _ 0 0 rfl,
   c4_reply_dispatch.2.1 _ 3 0 0 4 rfl (by omega),
   c4_reply_dispatch.2.2.1 _ 1 0 2 4 rfl (by omega),
   c4_reply_dispatch.2.2.2.1 _ 0 0 4 rfl,
   c4_reply_dispatch.2.2.2.2 _ 0 0 4 rfl⟩

/-- Counterexample to C5 as stated: when transport I/O fails on every
attempt for a chunk, the retry loop aborts immediately on the first
attempt with the propagated I/O error — the code's
`Err(e) => Err(e)?` — not with the retry-budget error `ComWriteFailed`
after 5 attempts. -/
theorem c5_counterexample :
    retryLoop (fun _ => .ioFail) 0 0 = .error .IoErr ∧
    retryLoop (fun _ => .ioFail) 0 0 ≠ .error .ComWriteFailed := by
  exact ⟨by decide, by decide⟩

/-- C5 (amended): a transport I/O or decode failure while sending a
chunk or reading its reply aborts the whole transfer immediately with
the propagated error and is not retried; the per-chunk budget of
`MAX_RETRY = 5` attempts applies to in-range `Retry` replies — a chunk
answered only with `Retry(Some(id <= i))` is attempted exactly
`MAX_RETRY` times, after which the host aborts with `ComWriteFailed`
(the `TransferError`), never retrying indefinitely. -/
theorem c5_retry_budget :
    (∀ env i t rem, env t = .ioFail →
      retryLoopAux env i t (rem + 1) = .error .IoErr) ∧
    (∀ env i t, (∀ k, k < MAX_RETRY → env (t + k) = .segmentStatus (.Retry (some 0))) →
      retryLoop env i t = .error .ComWriteFailed) := by
  constructor
  · intro env i t rem h
    simp [retryLoopAux, h, sendChunk]
  · intro env i t h
    have h0 := h 0 (by decide)
    have h1 := h 1 (by decide)
    have h2 := h 2 (by decide)
    have h3 := h 3 (by decide)
    have h4 := h 4 (by decide)
    rw [Nat.add_zero] at h0
    show retryLoopAux env i t 5 = .error .ComWriteFailed
    simp [retryLoopAux, sendChunk, h0, h1, h2, h3, h4, Nat.add_assoc]

/-- Witness for C5 (amended): an immediate abort on a failing
transport, and a budget-exhausting run of in-range `Retry` replies. -/
theorem c5_retry_budget_witness :
    retryLoopAux (fun _ => .ioFail) 0 0 5 = .error .IoErr ∧
    retryLoop (fun _ => .segmentStatus (.Retry (some 0))) 7 0 = .error .ComWriteFailed :=
  ⟨c5_retry_budget.1 _ 0 0 4 rfl,
   c5_retry_budget.2 _ 7 0 (fun _ _ => rfl)⟩

end Uart
